import Mathlib

/-!
# Verification of the Factorio GPT companion service

A shallow embedding of `src/utility/gpt_assistant_service.py`: the service
configuration, the rate-limit snapshot, the readiness gate, the chat relay
(`call_openai`), the `/status` and `/config` HTTP handlers, and the
base64/UTF-8 secret obfuscation, together with theorems about them.

Python dynamic values decoded from JSON are modelled by `JsonVal`; Python
`str` is modelled by Lean `String` (valid Unicode scalar values); Python
`int` by `Int`; Python `float` by `PyFloat` (a rational, infinity, or NaN).
-/

namespace FactorioGPT

/-- A JSON value as produced by Python's `json.loads`: objects are
association lists (`json.loads` yields unique keys), numbers are rationals. -/
inductive JsonVal : Type where
  | null : JsonVal
  | bool : Bool → JsonVal
  | num : ℚ → JsonVal
  | str : String → JsonVal
  | arr : List JsonVal → JsonVal
  | obj : List (String × JsonVal) → JsonVal
  deriving Repr

/-- Python truthiness (`bool(x)`) of a JSON-decoded value: `None`, `False`,
zero, and empty containers/strings are falsy, everything else truthy. -/
def pyBool : JsonVal → Bool
  | .null => false
  | .bool b => b
  | .num q => q ≠ 0
  | .str s => s ≠ ""
  | .arr xs => !xs.isEmpty
  | .obj kvs => !kvs.isEmpty

/-- Rendering of a JSON number under Python `str()`: an integral value
renders as the integer; non-integral values are approximated by the
rational's own rendering (claims only exercise the integral case). -/
def pyNumRepr (q : ℚ) : String :=
  if q.den = 1 then toString q.num else toString q

mutual
/-- Python `str()` of a JSON-decoded value. Containers render via `repr` of
the elements; strings inside containers are shown in single quotes
(approximating `repr` for strings without characters needing escapes). -/
def pyStr : JsonVal → String
  | .null => "None"
  | .bool true => "True"
  | .bool false => "False"
  | .num q => pyNumRepr q
  | .str s => s
  | .arr xs => "[" ++ pyReprList xs ++ "]"
  | .obj kvs => "\x7b" ++ pyReprObj kvs ++ "\x7d"

/-- Python `repr()` of a JSON-decoded value (as used for container elements). -/
def pyRepr : JsonVal → String
  | .str s => "\x27" ++ s ++ "\x27"
  | .arr xs => "[" ++ pyReprList xs ++ "]"
  | .obj kvs => "\x7b" ++ pyReprObj kvs ++ "\x7d"
  | v => pyStr v

/-- Comma-separated `repr`s of list elements. -/
def pyReprList : List JsonVal → String
  | [] => ""
  | [v] => pyRepr v
  | v :: rest => pyRepr v ++ ", " ++ pyReprList rest

/-- Comma-separated `key: value` pairs of a dict's `repr`. -/
def pyReprObj : List (String × JsonVal) → String
  | [] => ""
  | [(k, v)] => "\x27" ++ k ++ "\x27: " ++ pyRepr v
  | (k, v) :: rest => "\x27" ++ k ++ "\x27: " ++ pyRepr v ++ ", " ++ pyReprObj rest
end

/-- ASCII whitespace stripped by Python's numeric constructors. -/
def isPyWS (c : Char) : Bool :=
  c = ' ' ∨ c = '\t' ∨ c = '\n' ∨ c = '\r' ∨ c = '\x0b' ∨ c = '\x0c'

/-- Strip leading and trailing whitespace, as `int()`/`float()` do. -/
def stripWS (cs : List Char) : List Char :=
  ((cs.dropWhile isPyWS).reverse.dropWhile isPyWS).reverse

/-- Continue a digit run (value so far `acc`): decimal digits with single
underscores allowed between digits, as in Python numeric literals. -/
def pyIntCont (acc : Nat) : List Char → Option Nat
  | [] => some acc
  | '_' :: rest =>
    match rest with
    | c :: rest2 =>
      if c.isDigit then pyIntCont (acc * 10 + (c.toNat - 48)) rest2 else none
    | [] => none
  | c :: rest =>
    if c.isDigit then pyIntCont (acc * 10 + (c.toNat - 48)) rest else none

/-- A non-empty digit run starting with a digit. -/
def pyIntDigits : List Char → Option Nat
  | c :: rest => if c.isDigit then pyIntCont (c.toNat - 48) rest else none
  | [] => none

/-- Python `int(s)` for a string argument: optional surrounding whitespace,
optional sign, then a non-empty decimal digit run (underscores permitted
between digits); `none` where `int()` raises `ValueError`. -/
def pyInt (s : String) : Option Int :=
  match stripWS s.data with
  | '+' :: rest => (pyIntDigits rest).map Int.ofNat
  | '-' :: rest => (pyIntDigits rest).map (fun n => -(n : Int))
  | cs => (pyIntDigits cs).map Int.ofNat

/-- A Python float: finite values are modelled exactly as rationals
(ignoring binary rounding, which no claim depends on). -/
inductive PyFloat : Type where
  | finite : ℚ → PyFloat
  | inf : PyFloat
  | negInf : PyFloat
  | nan : PyFloat
  deriving DecidableEq, Repr

/-- Addition of Python floats (used for `time.time() + float(value)`). -/
def pyFloatAdd : PyFloat → PyFloat → PyFloat
  | .finite a, .finite b => .finite (a + b)
  | .nan, _ => .nan
  | _, .nan => .nan
  | .inf, .negInf => .nan
  | .negInf, .inf => .nan
  | .inf, _ => .inf
  | _, .inf => .inf
  | .negInf, _ => .negInf
  | _, .negInf => .negInf

/-- A digit run for `float()` parsing: returns (value, digit count, rest);
fails on a misplaced underscore. An empty run is allowed here and checked
by the caller. -/
def digitRun (acc : Nat) (cnt : Nat) : List Char → Option (Nat × Nat × List Char)
  | [] => some (acc, cnt, [])
  | '_' :: rest =>
    if cnt = 0 then none
    else
      match rest with
      | c :: rest2 =>
        if c.isDigit then digitRun (acc * 10 + (c.toNat - 48)) (cnt + 1) rest2
        else none
      | [] => none
  | c :: rest =>
    if c.isDigit then digitRun (acc * 10 + (c.toNat - 48)) (cnt + 1) rest
    else some (acc, cnt, c :: rest)

/-- The decimal part of Python's `float()` grammar (after sign):
`digits [. digits] [(e|E) [sign] digits]`, needing at least one mantissa
digit. -/
def parseDecimal (cs : List Char) : Option ℚ :=
  match digitRun 0 0 cs with
  | none => none
  | some (ip, ic, rest1) =>
    let fracResult : Option (Nat × Nat × List Char) :=
      match rest1 with
      | '.' :: r => digitRun 0 0 r
      | _ => some (0, 0, rest1)
    match fracResult with
    | none => none
    | some (fp, fc, rest2) =>
      if ic = 0 ∧ fc = 0 then none
      else
        let mant : ℚ := (ip : ℚ) + (fp : ℚ) / ((10 : ℚ) ^ fc)
        match rest2 with
        | [] => some mant
        | e :: r =>
          if e = 'e' ∨ e = 'E' then
            let signExp : Int × List Char :=
              match r with
              | '+' :: r2 => (1, r2)
              | '-' :: r2 => (-1, r2)
              | _ => (1, r)
            match digitRun 0 0 signExp.2 with
            | none => none
            | some (ev, ec, rest3) =>
              if ec = 0 ∨ rest3 ≠ [] then none
              else some (mant * (10 : ℚ) ^ (signExp.1 * (ev : Int)))
          else none

/-- Python `float(s)`: optional surrounding whitespace, optional sign, then
either `inf`/`infinity`/`nan` (case-insensitive) or a decimal literal;
`none` where `float()` raises `ValueError`. -/
def pyFloatOfString (s : String) : Option PyFloat :=
  let cs := stripWS s.data
  let signAndRest : Bool × List Char :=
    match cs with
    | '+' :: r => (true, r)
    | '-' :: r => (false, r)
    | _ => (true, cs)
  let body := signAndRest.2
  let lower := body.map Char.toLower
  if lower = "inf".data ∨ lower = "infinity".data then
    some (if signAndRest.1 then .inf else .negInf)
  else if lower = "nan".data then some .nan
  else
    (parseDecimal body).map fun q =>
      .finite (if signAndRest.1 then q else -q)

/-! ## Base64 (Python `base64.b64encode` / `b64decode`)

Bytes are `Nat`s below 256. The decoder here is the strict canonical form:
groups of four alphabet characters with `=` padding only at the end. On
every output of the encoder it agrees with Python's `b64decode` (which in
addition discards characters outside the alphabet and ignores the value of
unused padding bits — situations that never arise for encoder output). -/

/-- The base64 alphabet. -/
def b64Alphabet : String :=
  "ABCDEFGHIJKLMNOPQRSTUVWXYZabcdefghijklmnopqrstuvwxyz0123456789+/"

/-- The base64 alphabet character for a 6-bit value. -/
def b64Table (n : Nat) : Char :=
  b64Alphabet.data.getD n 'A'

/-- The 6-bit value of a base64 alphabet character, `none` outside the
alphabet. -/
def b64Val (c : Char) : Option Nat :=
  b64Alphabet.data.indexOf? c

/-- `base64.b64encode`: bytes to characters, three bytes to four characters,
padded with `=`. -/
def b64EncodeBytes : List Nat → List Char
  | [] => []
  | [a] => [b64Table (a / 4), b64Table (a % 4 * 16), '=', '=']
  | [a, b] => [b64Table (a / 4), b64Table (a % 4 * 16 + b / 16), b64Table (b % 16 * 4), '=']
  | a :: b :: c :: rest =>
    b64Table (a / 4) :: b64Table (a % 4 * 16 + b / 16) ::
      b64Table (b % 16 * 4 + c / 64) :: b64Table (c % 64) :: b64EncodeBytes rest

/-- `base64.b64decode` on canonical padded input: characters to bytes;
`none` where `b64decode` raises `binascii.Error`. Following Python, the
low bits of a final partial group are discarded, not validated. -/
def b64DecodeChars : List Char → Option (List Nat)
  | [] => some []
  | c1 :: c2 :: c3 :: c4 :: rest =>
    match b64Val c1, b64Val c2 with
    | some v1, some v2 =>
      if c3 = '=' then
        if c4 = '=' ∧ rest = [] then some [v1 * 4 + v2 / 16] else none
      else
        match b64Val c3 with
        | some v3 =>
          if c4 = '=' then
            if rest = [] then some [v1 * 4 + v2 / 16, v2 % 16 * 16 + v3 / 4] else none
          else
            match b64Val c4 with
            | some v4 =>
              (b64DecodeChars rest).map fun bs =>
                (v1 * 4 + v2 / 16) :: (v2 % 16 * 16 + v3 / 4) :: (v3 % 4 * 64 + v4) :: bs
            | none => none
        | none => none
    | _, _ => none
  | _ => none

/-- Looking up an encoded 6-bit value recovers it. -/
theorem b64Val_b64Table {v : Nat} (h : v < 64) : b64Val (b64Table v) = some v := by
  interval_cases v <;> rfl

/-- No 6-bit value encodes to the padding character. -/
theorem b64Table_ne_eq {v : Nat} (h : v < 64) : b64Table v ≠ '=' := by
  interval_cases v <;> decide

/-- Every character produced by the encoder is ASCII. -/
theorem b64Table_ascii (v : Nat) : (b64Table v).toNat < 128 := by
  by_cases h : v < 64
  · interval_cases v <;> decide
  · have hlen : b64Alphabet.data.length = 64 := by rfl
    have hA : b64Table v = 'A' := by
      unfold b64Table
      apply List.getD_eq_default
      omega
    rw [hA]; decide

/-- Base64 decoding inverts encoding on lists of bytes. -/
theorem b64_roundtrip (bs : List Nat) (h : ∀ x ∈ bs, x < 256) :
    b64DecodeChars (b64EncodeBytes bs) = some bs := by
  induction bs using b64EncodeBytes.induct with
  | case1 => simp [b64EncodeBytes, b64DecodeChars]
  | case2 a =>
    have ha : a < 256 := h a (by simp)
    have h1 : a / 4 < 64 := by omega
    have h2 : a % 4 * 16 < 64 := by omega
    simp [b64EncodeBytes, b64DecodeChars, b64Val_b64Table h1, b64Val_b64Table h2]
    omega
  | case3 a b =>
    have ha : a < 256 := h a (by simp)
    have hb : b < 256 := h b (by simp)
    have h1 : a / 4 < 64 := by omega
    have h2 : a % 4 * 16 + b / 16 < 64 := by omega
    have h3 : b % 16 * 4 < 64 := by omega
    simp [b64EncodeBytes, b64DecodeChars, b64Val_b64Table h1, b64Val_b64Table h2,
      b64Val_b64Table h3, b64Table_ne_eq h3]
    omega
  | case4 a b c rest ih =>
    have ha : a < 256 := h a (by simp)
    have hb : b < 256 := h b (by simp)
    have hc : c < 256 := h c (by simp)
    have h1 : a / 4 < 64 := by omega
    have h2 : a % 4 * 16 + b / 16 < 64 := by omega
    have h3 : b % 16 * 4 + c / 64 < 64 := by omega
    have h4 : c % 64 < 64 := by omega
    have ihr := ih (fun x hx => h x (by simp [hx]))
    simp [b64EncodeBytes, b64DecodeChars, b64Val_b64Table h1, b64Val_b64Table h2,
      b64Val_b64Table h3, b64Val_b64Table h4, b64Table_ne_eq h3, b64Table_ne_eq h4, ihr]
    omega

/-- Length of the base64 encoding: four characters per three-byte group. -/
theorem b64EncodeBytes_length (bs : List Nat) :
    (b64EncodeBytes bs).length = 4 * ((bs.length + 2) / 3) := by
  induction bs using b64EncodeBytes.induct with
  | case1 => simp [b64EncodeBytes]
  | case2 a => simp [b64EncodeBytes]
  | case3 a b => simp [b64EncodeBytes]
  | case4 a b c rest ih =>
    simp [b64EncodeBytes, ih]
    omega

/-! ## UTF-8 (Python `str.encode("utf-8")` / `bytes.decode("utf-8")`)

Python `str` values are modelled by Lean `String`, whose characters are
Unicode scalar values — the domain on which `encode("utf-8")` is total. -/

/-- UTF-8 encoding of one Unicode scalar value (one to four bytes). -/
def utf8EncodeChar (c : Char) : List Nat :=
  if c.toNat < 128 then [c.toNat]
  else if c.toNat < 2048 then
    [192 + c.toNat / 64, 128 + c.toNat % 64]
  else if c.toNat < 65536 then
    [224 + c.toNat / 4096, 128 + c.toNat / 64 % 64, 128 + c.toNat % 64]
  else
    [240 + c.toNat / 262144, 128 + c.toNat / 4096 % 64,
      128 + c.toNat / 64 % 64, 128 + c.toNat % 64]

/-- UTF-8 encoding of a list of characters (`str.encode("utf-8")`). -/
def utf8Encode : List Char → List Nat
  | [] => []
  | c :: rest => utf8EncodeChar c ++ utf8Encode rest

/-- Decode one UTF-8 sequence from the front of a byte stream: the scalar
value and the remaining bytes. Strict, as `bytes.decode("utf-8")`: rejects
truncated sequences, stray continuation bytes, overlong forms, surrogates
and values beyond U+10FFFF; `none` where Python raises
`UnicodeDecodeError`. -/
def utf8DecodeOne (b : Nat) (rest : List Nat) : Option (Nat × List Nat) :=
  if b < 128 then some (b, rest)
  else if b < 194 then none
  else if b < 224 then
    match rest with
    | b2 :: rest2 =>
      if 128 ≤ b2 ∧ b2 < 192 then some ((b - 192) * 64 + (b2 - 128), rest2) else none
    | [] => none
  else if b < 240 then
    match rest with
    | b2 :: b3 :: rest3 =>
      if (128 ≤ b2 ∧ b2 < 192) ∧ (128 ≤ b3 ∧ b3 < 192) ∧
          2048 ≤ (b - 224) * 4096 + (b2 - 128) * 64 + (b3 - 128) ∧
          ¬(55296 ≤ (b - 224) * 4096 + (b2 - 128) * 64 + (b3 - 128) ∧
            (b - 224) * 4096 + (b2 - 128) * 64 + (b3 - 128) < 57344) then
        some ((b - 224) * 4096 + (b2 - 128) * 64 + (b3 - 128), rest3)
      else none
    | _ => none
  else if b < 245 then
    match rest with
    | b2 :: b3 :: b4 :: rest4 =>
      if (128 ≤ b2 ∧ b2 < 192) ∧ (128 ≤ b3 ∧ b3 < 192) ∧ (128 ≤ b4 ∧ b4 < 192) ∧
          65536 ≤ (b - 240) * 262144 + (b2 - 128) * 4096 + (b3 - 128) * 64 + (b4 - 128) ∧
          (b - 240) * 262144 + (b2 - 128) * 4096 + (b3 - 128) * 64 + (b4 - 128) < 1114112 then
        some ((b - 240) * 262144 + (b2 - 128) * 4096 + (b3 - 128) * 64 + (b4 - 128), rest4)
      else none
    | _ => none
  else none

set_option maxRecDepth 4096 in
/-- Decoding one sequence consumes at least the lead byte. -/
theorem utf8DecodeOne_len {b : Nat} {rest : List Nat} {vr : Nat × List Nat}
    (h : utf8DecodeOne b rest = some vr) : vr.2.length ≤ rest.length := by
  unfold utf8DecodeOne at h
  split at h
  · cases h; exact Nat.le_refl _
  · split at h
    · cases h
    · split at h
      · split at h
        · split at h
          · cases h; exact Nat.le_add_right _ 1
          · cases h
        · cases h
      · split at h
        · split at h
          · split at h
            · cases h; exact Nat.le_add_right _ 2
            · cases h
          · cases h
        · split at h
          · split at h
            · split at h
              · cases h; exact Nat.le_add_right _ 3
              · cases h
            · cases h
          · cases h

/-- Strict UTF-8 decoding of a whole byte stream. -/
def utf8Decode : List Nat → Option (List Char)
  | [] => some []
  | b :: rest =>
    match h : utf8DecodeOne b rest with
    | some vr => (utf8Decode vr.2).map (fun cs => Char.ofNat vr.1 :: cs)
    | none => none
termination_by l => l.length
decreasing_by
  have := utf8DecodeOne_len h
  simp only [List.length_cons]
  omega

/-- The scalar-value bound of a character, in `omega`-consumable form. -/
theorem char_valid_bounds (c : Char) :
    c.toNat < 55296 ∨ (57344 ≤ c.toNat ∧ c.toNat < 1114112) := c.valid

/-- Every UTF-8 byte is below 256. -/
theorem utf8EncodeChar_lt (c : Char) : ∀ x ∈ utf8EncodeChar c, x < 256 := by
  have hv := char_valid_bounds c
  unfold utf8EncodeChar
  split
  · intro x hx; simp at hx; omega
  · split
    · intro x hx; simp at hx; omega
    · split
      · intro x hx; simp at hx; omega
      · intro x hx; simp at hx; omega

/-- A character encodes to at least one byte. -/
theorem utf8EncodeChar_length_pos (c : Char) : 1 ≤ (utf8EncodeChar c).length := by
  unfold utf8EncodeChar
  split
  · simp
  · split
    · simp
    · split <;> simp

/-- Every byte of an encoded string is below 256. -/
theorem utf8Encode_lt (cs : List Char) : ∀ x ∈ utf8Encode cs, x < 256 := by
  induction cs with
  | nil => simp [utf8Encode]
  | cons c rest ih =>
    intro x hx
    simp only [utf8Encode, List.mem_append] at hx
    rcases hx with hx | hx
    · exact utf8EncodeChar_lt c x hx
    · exact ih x hx

/-- The encoding is at least as long as the character list. -/
theorem utf8Encode_length_ge (cs : List Char) : cs.length ≤ (utf8Encode cs).length := by
  induction cs with
  | nil => simp [utf8Encode]
  | cons c rest ih =>
    have := utf8EncodeChar_length_pos c
    simp only [utf8Encode, List.length_append, List.length_cons]
    omega

/-- Decoding one sequence from the encoding of a character recovers the
character's scalar value and leaves the appended bytes. -/
theorem utf8DecodeOne_encodeChar (c : Char) (bs : List Nat) :
    ∃ b : Nat, ∃ tail : List Nat, utf8EncodeChar c ++ bs = b :: tail ∧
      utf8DecodeOne b tail = some (c.toNat, bs) := by
  have hv := char_valid_bounds c
  by_cases h1 : c.toNat < 128
  · refine ⟨c.toNat, bs, ?_, ?_⟩
    · simp [utf8EncodeChar, h1]
    · simp [utf8DecodeOne, h1]
  · by_cases h2 : c.toNat < 2048
    · refine ⟨192 + c.toNat / 64, (128 + c.toNat % 64) :: bs, ?_, ?_⟩
      · simp [utf8EncodeChar, h1, h2]
      · have e1 : ¬(192 + c.toNat / 64 < 128) := by omega
        have e2 : ¬(192 + c.toNat / 64 < 194) := by omega
        have e3 : 192 + c.toNat / 64 < 224 := by omega
        have e4 : 128 ≤ 128 + c.toNat % 64 ∧ 128 + c.toNat % 64 < 192 := by omega
        simp only [utf8DecodeOne, e1, e2, e3, e4, if_false, if_true, ite_true, ite_false,
          and_self, if_pos]
        have hval : (192 + c.toNat / 64 - 192) * 64 + (128 + c.toNat % 64 - 128) = c.toNat := by
          omega
        rw [hval]
    · by_cases h3 : c.toNat < 65536
      · refine ⟨224 + c.toNat / 4096,
          (128 + c.toNat / 64 % 64) :: (128 + c.toNat % 64) :: bs, ?_, ?_⟩
        · simp [utf8EncodeChar, h1, h2, h3]
        · have e1 : ¬(224 + c.toNat / 4096 < 128) := by omega
          have e2 : ¬(224 + c.toNat / 4096 < 194) := by omega
          have e3 : ¬(224 + c.toNat / 4096 < 224) := by omega
          have e4 : 224 + c.toNat / 4096 < 240 := by omega
          have e5 : (128 ≤ 128 + c.toNat / 64 % 64 ∧ 128 + c.toNat / 64 % 64 < 192) ∧
              (128 ≤ 128 + c.toNat % 64 ∧ 128 + c.toNat % 64 < 192) ∧
              2048 ≤ (224 + c.toNat / 4096 - 224) * 4096 +
                (128 + c.toNat / 64 % 64 - 128) * 64 + (128 + c.toNat % 64 - 128) ∧
              ¬(55296 ≤ (224 + c.toNat / 4096 - 224) * 4096 +
                  (128 + c.toNat / 64 % 64 - 128) * 64 + (128 + c.toNat % 64 - 128) ∧
                (224 + c.toNat / 4096 - 224) * 4096 +
                  (128 + c.toNat / 64 % 64 - 128) * 64 + (128 + c.toNat % 64 - 128) < 57344) := by
            omega
          simp only [utf8DecodeOne, e1, e2, e3, e4, e5, if_false, if_true, ite_true, ite_false,
            if_pos]
          have hval : (224 + c.toNat / 4096 - 224) * 4096 +
              (128 + c.toNat / 64 % 64 - 128) * 64 + (128 + c.toNat % 64 - 128) = c.toNat := by
            omega
          rw [hval]
          simp
      · refine ⟨240 + c.toNat / 262144,
          (128 + c.toNat / 4096 % 64) :: (128 + c.toNat / 64 % 64) :: (128 + c.toNat % 64) :: bs,
          ?_, ?_⟩
        · simp [utf8EncodeChar, h1, h2, h3]
        · have e1 : ¬(240 + c.toNat / 262144 < 128) := by omega
          have e2 : ¬(240 + c.toNat / 262144 < 194) := by omega
          have e3 : ¬(240 + c.toNat / 262144 < 224) := by omega
          have e4 : ¬(240 + c.toNat / 262144 < 240) := by omega
          have e5 : 240 + c.toNat / 262144 < 245 := by omega
          have e6 : (128 ≤ 128 + c.toNat / 4096 % 64 ∧ 128 + c.toNat / 4096 % 64 < 192) ∧
              (128 ≤ 128 + c.toNat / 64 % 64 ∧ 128 + c.toNat / 64 % 64 < 192) ∧
              (128 ≤ 128 + c.toNat % 64 ∧ 128 + c.toNat % 64 < 192) ∧
              65536 ≤ (240 + c.toNat / 262144 - 240) * 262144 +
                (128 + c.toNat / 4096 % 64 - 128) * 4096 +
                (128 + c.toNat / 64 % 64 - 128) * 64 + (128 + c.toNat % 64 - 128) ∧
              (240 + c.toNat / 262144 - 240) * 262144 +
                (128 + c.toNat / 4096 % 64 - 128) * 4096 +
                (128 + c.toNat / 64 % 64 - 128) * 64 + (128 + c.toNat % 64 - 128) < 1114112 := by
            omega
          simp only [utf8DecodeOne, e1, e2, e3, e4, e5, e6, if_false, if_true, ite_true,
            ite_false, if_pos]
          have hval : (240 + c.toNat / 262144 - 240) * 262144 +
              (128 + c.toNat / 4096 % 64 - 128) * 4096 +
              (128 + c.toNat / 64 % 64 - 128) * 64 + (128 + c.toNat % 64 - 128) = c.toNat := by
            omega
          rw [hval]
          simp

/-- Unfolding `utf8Decode` on a stream whose first sequence decodes. -/
theorem utf8Decode_cons (b : Nat) (rest : List Nat) (vr : Nat × List Nat)
    (hone : utf8DecodeOne b rest = some vr) :
    utf8Decode (b :: rest) = (utf8Decode vr.2).map (fun cs => Char.ofNat vr.1 :: cs) := by
  rw [utf8Decode.eq_def]
  split
  next x h2 => simp at h2
  next x b2 rest2 h2 =>
    injection h2 with hb hr
    subst hb
    subst hr
    split
    next vr2 h3 =>
      rw [hone] at h3
      cases h3
      rfl
    next h3 =>
      rw [hone] at h3
      cases h3

/-- Decoding the encoding of one character prepends that character. -/
theorem utf8Decode_encodeChar (c : Char) (bs : List Nat) :
    utf8Decode (utf8EncodeChar c ++ bs) = (utf8Decode bs).map (fun cs => c :: cs) := by
  obtain ⟨b, tail, heq, hone⟩ := utf8DecodeOne_encodeChar c bs
  rw [heq, utf8Decode_cons b tail (c.toNat, bs) hone]
  simp [Char.ofNat_toNat]

/-- UTF-8 decoding inverts encoding. -/
theorem utf8_roundtrip (cs : List Char) : utf8Decode (utf8Encode cs) = some cs := by
  induction cs with
  | nil =>
    rw [show utf8Encode [] = [] from rfl, utf8Decode.eq_def]
  | cons c rest ih =>
    rw [show utf8Encode (c :: rest) = utf8EncodeChar c ++ utf8Encode rest from rfl,
      utf8Decode_encodeChar, ih]
    rfl

/-! ## The service: configuration, secrets, rate limit, relay, handlers -/

/-- `RateLimitInfo` (a fresh instance has every field `None`). The `model`
tag is a dynamic value: `call_openai` passes whatever
`payload.get("model") or default` produced. -/
structure RateLimitInfo where
  remaining_requests : Option Int := none
  remaining_tokens : Option Int := none
  reset_timestamp : Option PyFloat := none
  model : Option JsonVal := none

/-- `ServiceConfig` with the source's defaults. `profiles` is dynamically
typed in the source (the `/config` handler assigns the patch value
verbatim), hence `JsonVal` here. -/
structure ServiceConfig where
  api_key : Option String := none
  organization : Option String := none
  default_model : String := "gpt-4o"
  profiles : JsonVal := JsonVal.obj
    [("gpt-4o", .obj [("temperature", .num 0.4), ("max_tokens", .num 2048)]),
     ("gpt-4.1", .obj [("temperature", .num 0.2), ("max_tokens", .num 2048)]),
     ("gpt-4.1-mini", .obj [("temperature", .num 0.3), ("max_tokens", .num 1024)])]
  host : String := "127.0.0.1"
  port : Int := 3925
  tls_enabled : Bool := false
  consent_acknowledged : Bool := false

/-- `ServiceConfig._encode_secret`: `None` for an absent or empty secret
(`if not secret`), otherwise the base64 of the secret's UTF-8 bytes,
decoded as ASCII text. -/
def encode_secret : Option String → Option String
  | none => none
  | some s =>
    if s = "" then none
    else some (String.mk (b64EncodeBytes (utf8Encode s.data)))

/-- `ServiceConfig._decode_secret`: `None` for an absent or empty stored
value, otherwise `b64decode` of the ASCII bytes followed by UTF-8 decoding,
with every failure (non-ASCII input, bad base64, bad UTF-8) caught and
turned into `None`. -/
def decode_secret : Option String → Option String
  | none => none
  | some s =>
    if s = "" then none
    else if s.data.all (fun c => c.toNat < 128) then
      match b64DecodeChars s.data with
      | some bytes =>
        match utf8Decode bytes with
        | some cs => some (String.mk cs)
        | none => none
      | none => none
    else none

/-- Python truthiness of an optional string (`if not self.config.api_key`). -/
def pyTruthyStr : Option String → Bool
  | none => false
  | some s => s ≠ ""

/-- The reason `GPTService.ensure_ready` raises. -/
inductive ReadyError : Type where
  | missingCredential : ReadyError
  | consentNotGiven : ReadyError
  deriving DecidableEq, Repr

/-- The `RuntimeError` messages raised by `ensure_ready`, as surfaced in
the `/status` payload's `error` field. -/
def readyErrorMessage : ReadyError → String
  | .missingCredential => "API key not configured. Запустите скрипт с флагом --setup."
  | .consentNotGiven => "Consent not acknowledged. Run with --setup to accept."

/-- `GPTService.ensure_ready`: fails when the API key is absent or empty,
then when consent is not acknowledged; otherwise returns. A pure function
of the configuration. -/
def ensure_ready (cfg : ServiceConfig) : Except ReadyError Unit :=
  if ¬ pyTruthyStr cfg.api_key then .error .missingCredential
  else if ¬ cfg.consent_acknowledged then .error .consentNotGiven
  else .ok ()

/-- Python `str.lower()` on a header name, characterwise (header names are
ASCII, where `lower()` is exactly the ASCII mapping). -/
def pyLower (s : String) : String :=
  String.mk (s.data.map Char.toLower)

/-- One iteration of the header loop in `GPTService.update_rate_limit`:
keys are lowercased before comparison; `int(value)` / `float(value)`
failures are caught and store `None`; unrecognized headers leave the
snapshot untouched. -/
def rl_header_step (now : ℚ) (rl : RateLimitInfo) (kv : String × String) : RateLimitInfo :=
  if pyLower kv.1 = "x-ratelimit-remaining-requests" then
    { rl with remaining_requests := pyInt kv.2 }
  else if pyLower kv.1 = "x-ratelimit-remaining-tokens" then
    { rl with remaining_tokens := pyInt kv.2 }
  else if pyLower kv.1 = "x-ratelimit-reset-requests" then
    { rl with reset_timestamp :=
        (pyFloatOfString kv.2).map (fun v => pyFloatAdd (.finite now) v) }
  else rl

/-- `GPTService.update_rate_limit`: builds a fresh `RateLimitInfo` tagged
with the effective model, then folds the response headers over it; `now`
stands for `time.time()`. The result atomically replaces the stored
snapshot (the lock is the mutual-exclusion mechanism; the value is as
modelled here). -/
def update_rate_limit (headers : List (String × String)) (model : JsonVal) (now : ℚ) :
    RateLimitInfo :=
  headers.foldl (rl_header_step now) { model := some model }

/-- `GPTService.get_rate_limit`: a field-by-field copy of the current
snapshot, taken under the lock. -/
def get_rate_limit (rl : RateLimitInfo) : RateLimitInfo :=
  { remaining_requests := rl.remaining_requests
    remaining_tokens := rl.remaining_tokens
    reset_timestamp := rl.reset_timestamp
    model := rl.model }

/-- Dictionary lookup on a JSON object's association list (`payload.get(k)`
and `k in payload` for the `dict` produced by `json.loads`, whose keys are
unique). -/
def jsonGet (kvs : List (String × JsonVal)) (k : String) : Option JsonVal :=
  match kvs.find? (fun kv => kv.1 = k) with
  | some kv => some kv.2
  | none => none

/-- The effective model of a chat call:
`payload.get("model") or self.config.default_model` — an absent or falsy
payload value falls back to the configured default. -/
def effModel (payload : List (String × JsonVal)) (cfg : ServiceConfig) : JsonVal :=
  match jsonGet payload "model" with
  | some v => if pyBool v then v else .str cfg.default_model
  | none => .str cfg.default_model

/-- The upstream HTTP response handed back by `requests.post`: final
status, raw headers, body text, and the parsed JSON body. -/
structure UpstreamResponse where
  status : Nat
  headers : List (String × String)
  text : String
  json : JsonVal

/-- The failures of `call_openai`: the readiness `RuntimeError`s, or the
`RuntimeError` raised for an upstream status of at least 400, which
carries the status code and the response body text in its message. -/
inductive RelayError : Type where
  | notReady : ReadyError → RelayError
  | upstream : Nat → String → RelayError

/-- Outcome of one `call_openai` invocation: the returned JSON or the
raised error, the rate-limit snapshot after the call, and how many times
the upstream client (`requests.post`) was invoked. -/
structure CallResult where
  result : Except RelayError JsonVal
  rate_limit : RateLimitInfo
  upstream_calls : Nat

/-- `GPTService.call_openai` over a given upstream response `resp` (the
network call is the only upstream invocation): gate on `ensure_ready`;
raise for a status of at least 400 leaving the snapshot untouched;
otherwise commit the freshly built snapshot and return the body. -/
def call_openai (cfg : ServiceConfig) (rl : RateLimitInfo)
    (payload : List (String × JsonVal)) (resp : UpstreamResponse) (now : ℚ) : CallResult :=
  match ensure_ready cfg with
  | .error e => ⟨.error (.notReady e), rl, 0⟩
  | .ok _ =>
    if resp.status ≥ 400 then ⟨.error (.upstream resp.status resp.text), rl, 1⟩
    else ⟨.ok resp.json, update_rate_limit resp.headers (effModel payload cfg) now, 1⟩

/-- The `/status` response payload (`RequestHandler.do_GET`): readiness and
the error message if any, connection settings, profiles, and the rate-limit
snapshot (`to_dict` serializes exactly the snapshot's four fields, so the
snapshot value itself stands for the serialized dict). The credential is
not among the fields. -/
structure StatusPayload where
  ready : Bool
  error : Option String
  host : String
  port : Int
  default_model : String
  profiles : JsonVal
  rate_limit : RateLimitInfo

/-- The `/status` handler body. -/
def status_payload (cfg : ServiceConfig) (rl : RateLimitInfo) : StatusPayload :=
  match ensure_ready cfg with
  | .ok _ =>
    { ready := true, error := none, host := cfg.host, port := cfg.port,
      default_model := cfg.default_model, profiles := cfg.profiles,
      rate_limit := get_rate_limit rl }
  | .error e =>
    { ready := false, error := some (readyErrorMessage e), host := cfg.host, port := cfg.port,
      default_model := cfg.default_model, profiles := cfg.profiles,
      rate_limit := get_rate_limit rl }

/-- An HTTP reply of the front end: status code and JSON body. -/
structure HttpReply where
  status : Nat
  body : JsonVal

/-- Outcome of one `/config` request: the configuration afterwards, the
number of `cfg.save()` invocations, and the reply sent. -/
structure ConfigOutcome where
  config : ServiceConfig
  saves : Nat
  reply : HttpReply

/-- The `/config` branch of `RequestHandler.do_POST`. `body` is `none` when
`_read_json` raises (invalid JSON), answered 400 with the `ValueError`
message before anything is touched. Otherwise each recognized field
present in the patch is applied in place — `default_model` through
`str()`, `profiles` verbatim, `consent_acknowledged` through `bool()`;
unrecognized fields are skipped — and then `cfg.save()` runs exactly once.
`saveError` carries the exception message when persistence fails; the
handler then answers 400, after the in-memory update already happened. -/
def handle_config (cfg : ServiceConfig) (body : Option (List (String × JsonVal)))
    (saveError : Option String) : ConfigOutcome :=
  match body with
  | none => ⟨cfg, 0, ⟨400, .obj [("error", .str "Invalid JSON payload")]⟩⟩
  | some patch =>
    let cfg1 :=
      match jsonGet patch "default_model" with
      | some v => { cfg with default_model := pyStr v }
      | none => cfg
    let cfg2 :=
      match jsonGet patch "profiles" with
      | some v => { cfg1 with profiles := v }
      | none => cfg1
    let cfg3 :=
      match jsonGet patch "consent_acknowledged" with
      | some v => { cfg2 with consent_acknowledged := pyBool v }
      | none => cfg2
    match saveError with
    | none => ⟨cfg3, 1, ⟨200, .obj [("status", .str "ok")]⟩⟩
    | some msg => ⟨cfg3, 1, ⟨400, .obj [("error", .str msg)]⟩⟩

/-! ## Properties of the secret obfuscation -/

/-- Base64 output is ASCII text (so the `.decode("ascii")` in the source
and the `.encode("ascii")` on the way back both succeed). -/
theorem b64EncodeBytes_ascii (bs : List Nat) :
    ∀ c ∈ b64EncodeBytes bs, c.toNat < 128 := by
  induction bs using b64EncodeBytes.induct with
  | case1 => simp [b64EncodeBytes]
  | case2 a =>
    intro c hc
    simp only [b64EncodeBytes, List.mem_cons, List.not_mem_nil, or_false] at hc
    rcases hc with rfl | rfl | rfl | rfl
    · exact b64Table_ascii _
    · exact b64Table_ascii _
    · decide
    · decide
  | case3 a b =>
    intro c hc
    simp only [b64EncodeBytes, List.mem_cons, List.not_mem_nil, or_false] at hc
    rcases hc with rfl | rfl | rfl | rfl
    · exact b64Table_ascii _
    · exact b64Table_ascii _
    · exact b64Table_ascii _
    · decide
  | case4 a b c rest ih =>
    intro ch hc
    simp only [b64EncodeBytes, List.mem_cons] at hc
    rcases hc with rfl | rfl | rfl | rfl | hc
    · exact b64Table_ascii _
    · exact b64Table_ascii _
    · exact b64Table_ascii _
    · exact b64Table_ascii _
    · exact ih ch hc

/-- A non-empty string has non-empty character data. -/
theorem data_ne_nil {s : String} (h : s ≠ "") : s.data ≠ [] := by
  intro hd
  exact h (String.ext (by rw [hd]))

/-- Decoding inverts the secret encoding on non-empty secrets. -/
theorem decode_encode_secret (s : String) (h : s ≠ "") :
    decode_secret (encode_secret (some s)) = some s := by
  have he : encode_secret (some s)
      = some (String.mk (b64EncodeBytes (utf8Encode s.data))) := by
    simp only [encode_secret, if_neg h]
  rw [he]
  have hlen : (String.mk (b64EncodeBytes (utf8Encode s.data))).data.length
      = 4 * (((utf8Encode s.data).length + 2) / 3) := b64EncodeBytes_length _
  have hd := data_ne_nil h
  have hpos : 1 ≤ s.data.length := by
    cases hsd : s.data with
    | nil => exact absurd hsd hd
    | cons a l => simp
  have hge := utf8Encode_length_ge s.data
  have hne : String.mk (b64EncodeBytes (utf8Encode s.data)) ≠ "" := by
    intro hEq
    have : (String.mk (b64EncodeBytes (utf8Encode s.data))).data.length = 0 := by
      rw [hEq]; rfl
    omega
  have hall : (String.mk (b64EncodeBytes (utf8Encode s.data))).data.all
      (fun c => c.toNat < 128) = true := by
    rw [List.all_eq_true]
    intro c hc
    simpa using b64EncodeBytes_ascii _ c hc
  simp only [decode_secret, if_neg hne, if_pos hall,
    b64_roundtrip _ (utf8Encode_lt s.data), utf8_roundtrip]

/-- The encoded secret is never the plaintext secret. -/
theorem encode_secret_ne (s : String) (h : s ≠ "") :
    encode_secret (some s) ≠ some s := by
  have he : encode_secret (some s)
      = some (String.mk (b64EncodeBytes (utf8Encode s.data))) := by
    simp only [encode_secret, if_neg h]
  rw [he]
  intro hEq
  have hEq2 : String.mk (b64EncodeBytes (utf8Encode s.data)) = s := by
    injection hEq
  have hlenEq : (b64EncodeBytes (utf8Encode s.data)).length = s.data.length := by
    have := congrArg (fun t => t.data.length) hEq2
    simpa using this
  have henc := b64EncodeBytes_length (utf8Encode s.data)
  have hge := utf8Encode_length_ge s.data
  have hd := data_ne_nil h
  have hpos : 1 ≤ s.data.length := by
    cases hsd : s.data with
    | nil => exact absurd hsd hd
    | cons a l => simp
  omega

/-! ## Properties of the header fold -/

/-- The header loop never touches the model tag set at construction. -/
theorem foldl_step_model (headers : List (String × String)) (rl : RateLimitInfo) (now : ℚ) :
    (headers.foldl (rl_header_step now) rl).model = rl.model := by
  induction headers generalizing rl with
  | nil => rfl
  | cons kv rest ih =>
    rw [List.foldl_cons, ih]
    unfold rl_header_step
    split_ifs <;> rfl

/-- Without a matching header, `remaining_requests` keeps its initial value. -/
theorem foldl_step_requests (headers : List (String × String)) (rl : RateLimitInfo) (now : ℚ)
    (h : ∀ kv ∈ headers, pyLower kv.1 ≠ "x-ratelimit-remaining-requests") :
    (headers.foldl (rl_header_step now) rl).remaining_requests = rl.remaining_requests := by
  induction headers generalizing rl with
  | nil => rfl
  | cons kv rest ih =>
    rw [List.foldl_cons, ih _ (fun x hx => h x (List.mem_cons_of_mem kv hx))]
    have hk := h kv (List.mem_cons_self kv rest)
    unfold rl_header_step
    split_ifs with h1 h2 h3 <;> first | exact absurd h1 hk | rfl

/-- Without a matching header, `remaining_tokens` keeps its initial value. -/
theorem foldl_step_tokens (headers : List (String × String)) (rl : RateLimitInfo) (now : ℚ)
    (h : ∀ kv ∈ headers, pyLower kv.1 ≠ "x-ratelimit-remaining-tokens") :
    (headers.foldl (rl_header_step now) rl).remaining_tokens = rl.remaining_tokens := by
  induction headers generalizing rl with
  | nil => rfl
  | cons kv rest ih =>
    rw [List.foldl_cons, ih _ (fun x hx => h x (List.mem_cons_of_mem kv hx))]
    have hk := h kv (List.mem_cons_self kv rest)
    unfold rl_header_step
    split_ifs with h1 h2 h3 <;> first | exact absurd h2 hk | rfl

/-- Without a matching header, `reset_timestamp` keeps its initial value. -/
theorem foldl_step_reset (headers : List (String × String)) (rl : RateLimitInfo) (now : ℚ)
    (h : ∀ kv ∈ headers, pyLower kv.1 ≠ "x-ratelimit-reset-requests") :
    (headers.foldl (rl_header_step now) rl).reset_timestamp = rl.reset_timestamp := by
  induction headers generalizing rl with
  | nil => rfl
  | cons kv rest ih =>
    rw [List.foldl_cons, ih _ (fun x hx => h x (List.mem_cons_of_mem kv hx))]
    have hk := h kv (List.mem_cons_self kv rest)
    unfold rl_header_step
    split_ifs with h1 h2 h3 <;> first | exact absurd h3 hk | rfl

/-! ## The claims -/

/-- C1: whenever the credential is absent (or empty) or the consent flag is
false, `call_openai` fails with the corresponding `NotReady` error, the
upstream client is invoked zero times, and the rate-limit snapshot is left
unchanged. -/
theorem claim_c1_not_ready (cfg : ServiceConfig) (rl : RateLimitInfo)
    (payload : List (String × JsonVal)) (resp : UpstreamResponse) (now : ℚ)
    (h : pyTruthyStr cfg.api_key = false ∨ cfg.consent_acknowledged = false) :
    (∃ e, (call_openai cfg rl payload resp now).result = .error (.notReady e)) ∧
    (call_openai cfg rl payload resp now).rate_limit = rl ∧
    (call_openai cfg rl payload resp now).upstream_calls = 0 := by
  obtain ⟨e, he⟩ : ∃ e, ensure_ready cfg = .error e := by
    unfold ensure_ready
    rcases h with h | h
    · exact ⟨.missingCredential, by simp [h]⟩
    · by_cases hk : pyTruthyStr cfg.api_key
      · exact ⟨.consentNotGiven, by simp [hk, h]⟩
      · exact ⟨.missingCredential, by simp [hk]⟩
  refine ⟨⟨e, ?_⟩, ?_, ?_⟩ <;> simp [call_openai, he]

/-- C1 witness: the default configuration (no credential, no consent). -/
theorem claim_c1_witness :
    (∃ e, (call_openai {} {} [] ⟨200, [], "", .obj []⟩ 0).result = .error (.notReady e)) ∧
    (call_openai {} {} [] ⟨200, [], "", .obj []⟩ 0).rate_limit = ({} : RateLimitInfo) ∧
    (call_openai {} {} [] ⟨200, [], "", .obj []⟩ 0).upstream_calls = 0 :=
  claim_c1_not_ready {} {} [] ⟨200, [], "", .obj []⟩ 0 (Or.inl rfl)

/-- C2 counterexample: the claim quantifies over every non-2xx status, but
the source only raises for `status_code >= 400`; a 301 response is treated
as success (body returned, snapshot replaced), not as an `UpstreamError`. -/
theorem claim_c2_counterexample :
    ¬(200 ≤ (301 : Nat) ∧ (301 : Nat) < 300) ∧
    (call_openai { api_key := some "k", consent_acknowledged := true } {} []
        ⟨301, [], "redirect", .obj []⟩ 0).result = .ok (.obj []) ∧
    (call_openai { api_key := some "k", consent_acknowledged := true } {} []
        ⟨301, [], "redirect", .obj []⟩ 0).rate_limit
      ≠ ({} : RateLimitInfo) := by
  refine ⟨by decide, rfl, ?_⟩
  intro hEq
  have := congrArg RateLimitInfo.model hEq
  simp [call_openai, ensure_ready, pyTruthyStr, update_rate_limit] at this

/-- C2 (amended): for every upstream response with status at least 400,
`call_openai` fails with `UpstreamError` carrying the status code and the
body text, the snapshot is exactly the one from before the call, and the
upstream client was invoked once. -/
theorem claim_c2_upstream_error (cfg : ServiceConfig) (rl : RateLimitInfo)
    (payload : List (String × JsonVal)) (resp : UpstreamResponse) (now : ℚ)
    (hready : ensure_ready cfg = .ok ()) (herr : 400 ≤ resp.status) :
    (call_openai cfg rl payload resp now).result
        = .error (.upstream resp.status resp.text) ∧
    (call_openai cfg rl payload resp now).rate_limit = rl ∧
    (call_openai cfg rl payload resp now).upstream_calls = 1 := by
  refine ⟨?_, ?_, ?_⟩ <;> simp [call_openai, hready, herr]

/-- C2 witness: a 401 response with body `invalid key` against a non-empty
prior snapshot. -/
theorem claim_c2_witness :
    (call_openai { api_key := some "k", consent_acknowledged := true }
        { remaining_requests := some 7 } [] ⟨401, [], "invalid key", .null⟩ 0).result
        = .error (.upstream 401 "invalid key") ∧
    (call_openai { api_key := some "k", consent_acknowledged := true }
        { remaining_requests := some 7 } [] ⟨401, [], "invalid key", .null⟩ 0).rate_limit
        = { remaining_requests := some 7 } ∧
    (call_openai { api_key := some "k", consent_acknowledged := true }
        { remaining_requests := some 7 } [] ⟨401, [], "invalid key", .null⟩ 0).upstream_calls
        = 1 :=
  claim_c2_upstream_error { api_key := some "k", consent_acknowledged := true }
    { remaining_requests := some 7 } [] ⟨401, [], "invalid key", .null⟩ 0 rfl (by decide)

/-- C4: `ensure_ready` returns `MissingCredential` exactly when no (or an
empty) credential is configured, `ConsentNotGiven` exactly when a
credential is present but consent is not acknowledged, and succeeds
exactly when both hold; it is a pure function of the configuration. -/
theorem claim_c4_ensure_ready (cfg : ServiceConfig) :
    (ensure_ready cfg = .error .missingCredential ↔ pyTruthyStr cfg.api_key = false) ∧
    (ensure_ready cfg = .error .consentNotGiven ↔
      pyTruthyStr cfg.api_key = true ∧ cfg.consent_acknowledged = false) ∧
    (ensure_ready cfg = .ok () ↔
      pyTruthyStr cfg.api_key = true ∧ cfg.consent_acknowledged = true) := by
  unfold ensure_ready
  by_cases hk : pyTruthyStr cfg.api_key <;> by_cases hc : cfg.consent_acknowledged <;>
    simp [hk, hc]

/-- C3: on a successful upstream response, `call_openai` commits a freshly
constructed snapshot tagged with the effective model; its fields come only
from the response headers — a header absent from the response makes the
corresponding field `None`, never the prior snapshot's value — and the
concrete 42/1000 response makes a subsequent status read report
`remaining_requests` 42 and `remaining_tokens` 1000. -/
theorem claim_c3_fresh_snapshot (cfg : ServiceConfig) (rl : RateLimitInfo)
    (payload : List (String × JsonVal)) (resp : UpstreamResponse) (now : ℚ)
    (hready : ensure_ready cfg = .ok ()) (hok : resp.status < 400) :
    (call_openai cfg rl payload resp now).rate_limit
        = update_rate_limit resp.headers (effModel payload cfg) now ∧
    (update_rate_limit resp.headers (effModel payload cfg) now).model
        = some (effModel payload cfg) ∧
    ((∀ kv ∈ resp.headers, pyLower kv.1 ≠ "x-ratelimit-remaining-requests") →
      (update_rate_limit resp.headers (effModel payload cfg) now).remaining_requests
        = none) ∧
    ((∀ kv ∈ resp.headers, pyLower kv.1 ≠ "x-ratelimit-remaining-tokens") →
      (update_rate_limit resp.headers (effModel payload cfg) now).remaining_tokens
        = none) ∧
    ((∀ kv ∈ resp.headers, pyLower kv.1 ≠ "x-ratelimit-reset-requests") →
      (update_rate_limit resp.headers (effModel payload cfg) now).reset_timestamp
        = none) ∧
    (resp.headers = [("x-ratelimit-remaining-requests", "42"),
        ("x-ratelimit-remaining-tokens", "1000")] →
      (status_payload cfg
          (call_openai cfg rl payload resp now).rate_limit).rate_limit.remaining_requests
        = some 42 ∧
      (status_payload cfg
          (call_openai cfg rl payload resp now).rate_limit).rate_limit.remaining_tokens
        = some 1000) := by
  have hlt : ¬(resp.status ≥ 400) := by omega
  have hcall : (call_openai cfg rl payload resp now).rate_limit
      = update_rate_limit resp.headers (effModel payload cfg) now := by
    simp [call_openai, hready, hlt]
  have hsp : ∀ X : RateLimitInfo, (status_payload cfg X).rate_limit = get_rate_limit X := by
    intro X
    simp [status_payload, hready]
  refine ⟨hcall, ?_, ?_, ?_, ?_, ?_⟩
  · unfold update_rate_limit
    rw [foldl_step_model]
  · intro hnone
    unfold update_rate_limit
    rw [foldl_step_requests _ _ _ hnone]
  · intro hnone
    unfold update_rate_limit
    rw [foldl_step_tokens _ _ _ hnone]
  · intro hnone
    unfold update_rate_limit
    rw [foldl_step_reset _ _ _ hnone]
  · intro hH
    rw [hcall, hH, hsp]
    constructor <;> rfl

/-- C3 witness: a ready configuration and the concrete 42/1000 response. -/
theorem claim_c3_witness :
    (call_openai { api_key := some "k", consent_acknowledged := true }
        { remaining_requests := some 1 } []
        ⟨200, [("x-ratelimit-remaining-requests", "42"),
          ("x-ratelimit-remaining-tokens", "1000")], "", .obj []⟩ 0).rate_limit
        = update_rate_limit
            [("x-ratelimit-remaining-requests", "42"),
              ("x-ratelimit-remaining-tokens", "1000")]
            (effModel [] { api_key := some "k", consent_acknowledged := true }) 0 ∧
    (update_rate_limit
        [("x-ratelimit-remaining-requests", "42"),
          ("x-ratelimit-remaining-tokens", "1000")]
        (effModel [] { api_key := some "k", consent_acknowledged := true }) 0).model
        = some (effModel [] { api_key := some "k", consent_acknowledged := true }) ∧
    ((∀ kv ∈ ([("x-ratelimit-remaining-requests", "42"),
        ("x-ratelimit-remaining-tokens", "1000")] : List (String × String)),
        pyLower kv.1 ≠ "x-ratelimit-remaining-requests") →
      (update_rate_limit
          [("x-ratelimit-remaining-requests", "42"),
            ("x-ratelimit-remaining-tokens", "1000")]
          (effModel [] { api_key := some "k", consent_acknowledged := true }) 0).remaining_requests
        = none) ∧
    ((∀ kv ∈ ([("x-ratelimit-remaining-requests", "42"),
        ("x-ratelimit-remaining-tokens", "1000")] : List (String × String)),
        pyLower kv.1 ≠ "x-ratelimit-remaining-tokens") →
      (update_rate_limit
          [("x-ratelimit-remaining-requests", "42"),
            ("x-ratelimit-remaining-tokens", "1000")]
          (effModel [] { api_key := some "k", consent_acknowledged := true }) 0).remaining_tokens
        = none) ∧
    ((∀ kv ∈ ([("x-ratelimit-remaining-requests", "42"),
        ("x-ratelimit-remaining-tokens", "1000")] : List (String × String)),
        pyLower kv.1 ≠ "x-ratelimit-reset-requests") →
      (update_rate_limit
          [("x-ratelimit-remaining-requests", "42"),
            ("x-ratelimit-remaining-tokens", "1000")]
          (effModel [] { api_key := some "k", consent_acknowledged := true }) 0).reset_timestamp
        = none) ∧
    (([("x-ratelimit-remaining-requests", "42"),
        ("x-ratelimit-remaining-tokens", "1000")] : List (String × String))
        = [("x-ratelimit-remaining-requests", "42"),
            ("x-ratelimit-remaining-tokens", "1000")] →
      (status_payload { api_key := some "k", consent_acknowledged := true }
          (call_openai { api_key := some "k", consent_acknowledged := true }
            { remaining_requests := some 1 } []
            ⟨200, [("x-ratelimit-remaining-requests", "42"),
              ("x-ratelimit-remaining-tokens", "1000")], "", .obj []⟩
            0).rate_limit).rate_limit.remaining_requests = some 42 ∧
      (status_payload { api_key := some "k", consent_acknowledged := true }
          (call_openai { api_key := some "k", consent_acknowledged := true }
            { remaining_requests := some 1 } []
            ⟨200, [("x-ratelimit-remaining-requests", "42"),
              ("x-ratelimit-remaining-tokens", "1000")], "", .obj []⟩
            0).rate_limit).rate_limit.remaining_tokens = some 1000) :=
  claim_c3_fresh_snapshot { api_key := some "k", consent_acknowledged := true }
    { remaining_requests := some 1 } []
    ⟨200, [("x-ratelimit-remaining-requests", "42"),
      ("x-ratelimit-remaining-tokens", "1000")], "", .obj []⟩ 0 rfl (by decide)

/-- C5: a `/config` request whose body parses applies exactly the
recognized fields present in the patch (`default_model` via `str`,
`profiles` verbatim, `consent_acknowledged` via `bool`), leaves every
field absent from the patch unchanged — including the credential,
organization, host and port, which the handler can never touch — ignores
unknown fields without error, and triggers exactly one persistence call. -/
theorem claim_c5_config_patch (cfg : ServiceConfig) (patch : List (String × JsonVal)) :
    (handle_config cfg (some patch) none).saves = 1 ∧
    (handle_config cfg (some patch) none).reply
        = ⟨200, .obj [("status", .str "ok")]⟩ ∧
    (handle_config cfg (some patch) none).config.api_key = cfg.api_key ∧
    (handle_config cfg (some patch) none).config.organization = cfg.organization ∧
    (handle_config cfg (some patch) none).config.host = cfg.host ∧
    (handle_config cfg (some patch) none).config.port = cfg.port ∧
    (handle_config cfg (some patch) none).config.tls_enabled = cfg.tls_enabled ∧
    (jsonGet patch "default_model" = none →
      (handle_config cfg (some patch) none).config.default_model = cfg.default_model) ∧
    (∀ v, jsonGet patch "default_model" = some v →
      (handle_config cfg (some patch) none).config.default_model = pyStr v) ∧
    (jsonGet patch "profiles" = none →
      (handle_config cfg (some patch) none).config.profiles = cfg.profiles) ∧
    (∀ v, jsonGet patch "profiles" = some v →
      (handle_config cfg (some patch) none).config.profiles = v) ∧
    (jsonGet patch "consent_acknowledged" = none →
      (handle_config cfg (some patch) none).config.consent_acknowledged
        = cfg.consent_acknowledged) ∧
    (∀ v, jsonGet patch "consent_acknowledged" = some v →
      (handle_config cfg (some patch) none).config.consent_acknowledged = pyBool v) := by
  cases hdm : jsonGet patch "default_model" <;>
    cases hp : jsonGet patch "profiles" <;>
      cases hc : jsonGet patch "consent_acknowledged" <;>
        simp [handle_config, hdm, hp, hc]

/-- C5 witness: the patch setting only `default_model` to `x`. -/
theorem claim_c5_witness :
    (handle_config {} (some [("default_model", JsonVal.str "x")]) none).saves = 1 ∧
    (handle_config {} (some [("default_model", JsonVal.str "x")]) none).config.default_model
      = "x" ∧
    (handle_config {} (some [("default_model", JsonVal.str "x")]) none).config.profiles
      = ({} : ServiceConfig).profiles ∧
    (handle_config {} (some [("default_model", JsonVal.str "x")]) none).config.consent_acknowledged
      = ({} : ServiceConfig).consent_acknowledged ∧
    (handle_config {} (some [("default_model", JsonVal.str "x")]) none).config.api_key
      = ({} : ServiceConfig).api_key := by
  have h := claim_c5_config_patch {} [("default_model", JsonVal.str "x")]
  exact ⟨h.1, (h.2.2.2.2.2.2.2.2.1 (JsonVal.str "x") rfl).trans (by simp [pyStr]),
    h.2.2.2.2.2.2.2.2.2.1 rfl, h.2.2.2.2.2.2.2.2.2.2.2.1 rfl, h.2.2.1⟩

/-- C6 counterexample: the claim says a recognized `/config` field with an
invalid type is rejected with a client error, but the handler coerces
instead of validating: `default_model: 123` (a number, not a string) is
accepted with status 200 and stored as the string `123`. -/
theorem claim_c6_counterexample :
    (handle_config {} (some [("default_model", JsonVal.num 123)]) none).reply.status = 200 ∧
    (handle_config {} (some [("default_model", JsonVal.num 123)]) none).config.default_model
      = "123" := by
  refine ⟨rfl, ?_⟩
  have h := (claim_c5_config_patch {} [("default_model", JsonVal.num 123)]).2.2.2.2.2.2.2.2.1
    (JsonVal.num 123) rfl
  rw [h]
  simp [pyStr, pyNumRepr]
  decide

/-- C6 (amended): a `/config` request whose body is not valid JSON is
rejected with a client-error response carrying the `ValueError` message,
before any state is touched; recognized fields of unexpected type are
coerced (`str`/`bool`) or stored verbatim rather than rejected, and the
handler is a total function — it never crashes. -/
theorem claim_c6_bad_json (cfg : ServiceConfig) (sv : Option String) :
    handle_config cfg none sv
      = ⟨cfg, 0, ⟨400, .obj [("error", .str "Invalid JSON payload")]⟩⟩ := rfl

/-- C7: when persistence fails during a `/config` request, the call is
reported as a failure (status 400 with the exception message), one save
was still attempted, and the in-memory configuration already reflects the
patch — identical to the configuration a successful save would have
left. -/
theorem claim_c7_no_rollback (cfg : ServiceConfig) (patch : List (String × JsonVal))
    (msg : String) :
    (handle_config cfg (some patch) (some msg)).reply
        = ⟨400, .obj [("error", .str msg)]⟩ ∧
    (handle_config cfg (some patch) (some msg)).saves = 1 ∧
    (handle_config cfg (some patch) (some msg)).config
        = (handle_config cfg (some patch) none).config ∧
    (∀ v, jsonGet patch "default_model" = some v →
      (handle_config cfg (some patch) (some msg)).config.default_model = pyStr v) ∧
    (∀ v, jsonGet patch "profiles" = some v →
      (handle_config cfg (some patch) (some msg)).config.profiles = v) ∧
    (∀ v, jsonGet patch "consent_acknowledged" = some v →
      (handle_config cfg (some patch) (some msg)).config.consent_acknowledged = pyBool v) := by
  cases hdm : jsonGet patch "default_model" <;>
    cases hp : jsonGet patch "profiles" <;>
      cases hc : jsonGet patch "consent_acknowledged" <;>
        simp [handle_config, hdm, hp, hc]

/-- C7 witness: persistence fails on the `default_model`-only patch. -/
theorem claim_c7_witness :
    (handle_config {} (some [("default_model", JsonVal.str "x")]) (some "disk full")).reply
        = ⟨400, .obj [("error", .str "disk full")]⟩ ∧
    (handle_config {} (some [("default_model", JsonVal.str "x")]) (some "disk full")).saves
        = 1 ∧
    (handle_config {} (some [("default_model", JsonVal.str "x")])
        (some "disk full")).config.default_model = "x" := by
  have h := claim_c7_no_rollback {} [("default_model", JsonVal.str "x")] "disk full"
  exact ⟨h.1, h.2.1, (h.2.2.2.1 (JsonVal.str "x") rfl).trans (by simp [pyStr])⟩

/-- C8: the credential obfuscation is a reversible encoding — decoding the
encoded form of any non-empty credential yields the credential back, and
the encoded form (what `to_json` persists) is never the plaintext. -/
theorem claim_c8_obfuscation (s : String) (h : s ≠ "") :
    decode_secret (encode_secret (some s)) = some s ∧
    encode_secret (some s) ≠ some s :=
  ⟨decode_encode_secret s h, encode_secret_ne s h⟩

/-- C8 witness: a concrete secret. -/
theorem claim_c8_witness :
    decode_secret (encode_secret (some "sk-test-123")) = some "sk-test-123" ∧
    encode_secret (some "sk-test-123") ≠ some "sk-test-123" :=
  claim_c8_obfuscation "sk-test-123" (by decide)

/-- C9: the `/status` payload never contains the credential — two
configurations differing only in the value of a present (non-empty)
credential produce identical payloads. -/
theorem claim_c9_status_no_leak (cfg : ServiceConfig) (rl : RateLimitInfo)
    (k1 k2 : String) (h1 : k1 ≠ "") (h2 : k2 ≠ "") :
    status_payload { cfg with api_key := some k1 } rl
      = status_payload { cfg with api_key := some k2 } rl := by
  have t1 : pyTruthyStr (some k1) = true := by simp [pyTruthyStr, h1]
  have t2 : pyTruthyStr (some k2) = true := by simp [pyTruthyStr, h2]
  by_cases hc : cfg.consent_acknowledged <;>
    simp [status_payload, ensure_ready, t1, t2, hc]

/-- C9 witness: two distinct concrete credentials. -/
theorem claim_c9_witness :
    status_payload { ({} : ServiceConfig) with api_key := some "key-one" } {}
      = status_payload { ({} : ServiceConfig) with api_key := some "key-two" } {} :=
  claim_c9_status_no_leak {} {} "key-one" "key-two" (by decide) (by decide)

/-- C10: the header processing of `update_rate_limit` is total — each loop
iteration matches header names case-insensitively (after `lower()`),
stores the parsed value of a recognized header, stores `None` instead of
raising when the value does not parse as a number, and ignores every other
header. -/
theorem claim_c10_header_handling (rl : RateLimitInfo) (now : ℚ) (k v : String) :
    (pyLower k = "x-ratelimit-remaining-requests" →
      rl_header_step now rl (k, v) = { rl with remaining_requests := pyInt v }) ∧
    (pyLower k = "x-ratelimit-remaining-tokens" →
      rl_header_step now rl (k, v) = { rl with remaining_tokens := pyInt v }) ∧
    (pyLower k = "x-ratelimit-reset-requests" →
      rl_header_step now rl (k, v)
        = { rl with
            reset_timestamp :=
              (pyFloatOfString v).map (fun x => pyFloatAdd (.finite now) x) }) ∧
    (pyLower k = "x-ratelimit-remaining-requests" → pyInt v = none →
      (rl_header_step now rl (k, v)).remaining_requests = none) ∧
    (pyLower k = "x-ratelimit-remaining-tokens" → pyInt v = none →
      (rl_header_step now rl (k, v)).remaining_tokens = none) ∧
    (pyLower k = "x-ratelimit-reset-requests" → pyFloatOfString v = none →
      (rl_header_step now rl (k, v)).reset_timestamp = none) ∧
    ((pyLower k ≠ "x-ratelimit-remaining-requests" ∧
      pyLower k ≠ "x-ratelimit-remaining-tokens" ∧
      pyLower k ≠ "x-ratelimit-reset-requests") →
      rl_header_step now rl (k, v) = rl) := by
  refine ⟨?_, ?_, ?_, ?_, ?_, ?_, ?_⟩
  · intro h
    simp [rl_header_step, h]
  · intro h
    simp [rl_header_step, h]
  · intro h
    simp [rl_header_step, h]
  · intro h hp
    simp [rl_header_step, h, hp]
  · intro h hp
    simp [rl_header_step, h, hp]
  · intro h hp
    simp [rl_header_step, h, hp]
  · intro h
    simp [rl_header_step, h.1, h.2.1, h.2.2]

/-- C10 witness: a mixed-case header with an unparseable value stores
`None`; an unrelated header leaves the snapshot unchanged. -/
theorem claim_c10_witness :
    (rl_header_step 0 {} ("X-RateLimit-Remaining-Requests", "soon")).remaining_requests
      = none ∧
    rl_header_step 0 {} ("Content-Type", "application/json") = ({} : RateLimitInfo) := by
  constructor
  · exact (claim_c10_header_handling {} 0 "X-RateLimit-Remaining-Requests" "soon").2.2.2.1
      (by decide) rfl
  · exact (claim_c10_header_handling {} 0 "Content-Type" "application/json").2.2.2.2.2.2
      ⟨by decide, by decide, by decide⟩

end FactorioGPT
